/-
  Verification of the fortios_ipv4_policy Ansible module
  (lib/ansible/modules/network/fortios/fortios_ipv4_policy.py)
  and of the block-configuration reconciliation engine that it drives.

  The module source builds a candidate firewall-policy block from
  validated parameters and hands it to a reconciliation engine
  (load running config, diff, render, apply).  The engine itself
  (module_utils/fortios.py together with the pyFG library) is not part
  of the source tree; where a definition models that missing engine its
  doc comment starts with "Modelled from the spec:".
-/
import Mathlib

namespace Fortios

/-- Association-list lookup on string-keyed lists, first match wins.
Models Python dictionary lookup and the get_param contract of the spec
(section 4.1): the value, or an explicit absent result. -/
def getA {α : Type} : List (String × α) → String → Option α
  | [], _ => none
  | (k1, v1) :: rest, k => if k1 = k then some v1 else getA rest k

/-- Association-list insert-or-overwrite, first occurrence replaced.
Models Python dictionary assignment and the set_param contract of the
spec (section 4.1): insert or overwrite, total, no failure mode. -/
def setA {α : Type} : List (String × α) → String → α → List (String × α)
  | [], k, v => [(k, v)]
  | (k1, v1) :: rest, k, v => if k1 = k then (k, v) :: rest else (k1, v1) :: setA rest k v

/-- Keys of an association list are pairwise distinct (the ConfigNode
invariant of spec section 3: keys unique per node). -/
def keyNodup {α : Type} : List (String × α) → Bool
  | [] => true
  | (k, _) :: rest => (getA rest k).isNone && keyNodup rest

/-- Modelled from the spec: a ConfigNode (spec section 3) is a block of
configuration holding scalar parameters and keyed child blocks.  Per
spec section 4.1 two trees are compared purely on params and children
content, so only those two fields are carried. -/
inductive ConfigNode : Type where
  | node : List (String × String) → List (String × ConfigNode) → ConfigNode

/-- Parameters of a configuration block. -/
def ConfigNode.params : ConfigNode → List (String × String)
  | node ps _ => ps

/-- Child blocks of a configuration block. -/
def ConfigNode.children : ConfigNode → List (String × ConfigNode)
  | node _ cs => cs

/-- Replace (or add) the child block stored under a key.  Models the
add_block call of the module: the candidate tree is the running tree
with this one child block replaced by the freshly built block. -/
def ConfigNode.setChild : ConfigNode → String → ConfigNode → ConfigNode
  | node ps cs, k, c => node ps (setA cs k c)

mutual

/-- Well-formedness of a node: parameter keys and child keys are
pairwise distinct, recursively (the tree invariant of spec section 3). -/
def nodeWF : ConfigNode → Bool
  | ConfigNode.node ps cs => keyNodup ps && keyNodup cs && childrenWF cs

/-- Well-formedness of a child list: every child node is well formed. -/
def childrenWF : List (String × ConfigNode) → Bool
  | [] => true
  | (_, c) :: rest => nodeWF c && childrenWF rest

end

/-- Modelled from the spec: the operation alphabet of the diff engine
(spec section 3, Operation). -/
inductive Op : Type where
  | SetParam : String → String → Op
  | UnsetParam : String → Op
  | EnterBlock : String → Op
  | EditBlock : String → Op
  | DeleteBlock : String → Op
  | EndBlock : Op
deriving DecidableEq

/-- Modelled from the spec: step 1 of the diff algorithm (spec section
4.3).  A key present in candidate with a different or absent-in-running
value emits SetParam; a key present in running but absent from candidate
emits UnsetParam; a string-exact match emits nothing. -/
def diffParams (rp cp : List (String × String)) : List Op :=
  cp.filterMap (fun kv => if getA rp kv.1 = some kv.2 then none else some (Op.SetParam kv.1 kv.2))
    ++ rp.filterMap (fun kv => if (getA cp kv.1).isSome then none else some (Op.UnsetParam kv.1))

mutual

/-- Modelled from the spec: the diff engine (spec section 4.3).
Parameter maps are compared key by key; child keys present only in the
running tree emit DeleteBlock, with deletions emitted before edits at
the same level (step 3); candidate children are then recursed into. -/
def diffNode : ConfigNode → ConfigNode → List Op
  | ConfigNode.node rp rc, ConfigNode.node cp cc =>
      diffParams rp cp
        ++ rc.filterMap (fun kc => if (getA cc kc.1).isSome then none else some (Op.DeleteBlock kc.1))
        ++ diffKids rc cc

/-- Modelled from the spec: step 2 of the diff algorithm (spec section
4.3).  A key in both trees yields EditBlock, the recursive diff, then
EndBlock, elided entirely when the recursive diff is empty; a key only
in candidate recurses against an implicit empty node. -/
def diffKids (rc : List (String × ConfigNode)) : List (String × ConfigNode) → List Op
  | [] => []
  | (k, c) :: rest =>
      (match getA rc k with
        | some r =>
            let inner := diffNode r c
            if inner = [] then [] else Op.EditBlock k :: (inner ++ [Op.EndBlock])
        | none => Op.EditBlock k :: (diffNode (ConfigNode.node [] []) c ++ [Op.EndBlock]))
        ++ diffKids rc rest

end

/-- Modelled from the spec: the serializer (spec sections 4.4 and 6)
renders one operation into the native command grammar
(config, edit, set, unset, delete, next). -/
def renderOp : Op → String
  | Op.SetParam n v => "set " ++ n ++ " " ++ v
  | Op.UnsetParam n => "unset " ++ n
  | Op.EnterBlock k => "config " ++ k
  | Op.EditBlock k => "edit " ++ k
  | Op.DeleteBlock k => "delete " ++ k
  | Op.EndBlock => "next"

/-- Modelled from the spec: rendering an operation sequence to the
command lines transmitted to the device. -/
def render (ops : List Op) : List String := ops.map renderOp

/-- The state module parameter: choices are present and absent, as
enforced by the argument spec of the module (line 183). -/
inductive PState : Type where
  | present
  | absent
deriving DecidableEq

/-- The module parameters after AnsibleModule validation and default
application, one field per key of argument_spec (source lines 178-199). -/
structure Params : Type where
  comment : Option String
  id : Int
  src_intf : String
  dst_intf : String
  state : PState
  src_addr : List String
  dst_addr : List String
  src_addr_negate : Bool
  dst_addr_negate : Bool
  policy_action : String
  service : List String
  service_negate : Bool
  schedule : String
  nat : Bool
  fixedport : Bool
  poolname : Option String
  av_profile : Option String
  webfilter_profile : Option String
  ips_sensor : Option String
  application_list : Option String

/-- Caller-supplied arguments before default application: every
argument_spec entry carrying a default becomes an Option here, required
entries stay plain (source lines 178-199). -/
structure UserArgs : Type where
  comment : Option String
  id : Int
  src_intf : Option String
  dst_intf : Option String
  state : Option PState
  src_addr : List String
  dst_addr : List String
  src_addr_negate : Option Bool
  dst_addr_negate : Option Bool
  policy_action : String
  service : List String
  service_negate : Option Bool
  schedule : Option String
  nat : Option Bool
  fixedport : Option Bool
  poolname : Option String
  av_profile : Option String
  webfilter_profile : Option String
  ips_sensor : Option String
  application_list : Option String

/-- Default application performed by AnsibleModule from argument_spec
(source lines 178-199): src_intf and dst_intf default to any, state to
present, the boolean flags to False, schedule to always. -/
def resolveParams (a : UserArgs) : Params :=
  { comment := a.comment
    id := a.id
    src_intf := a.src_intf.getD "any"
    dst_intf := a.dst_intf.getD "any"
    state := a.state.getD PState.present
    src_addr := a.src_addr
    dst_addr := a.dst_addr
    src_addr_negate := a.src_addr_negate.getD false
    dst_addr_negate := a.dst_addr_negate.getD false
    policy_action := a.policy_action
    service := a.service
    service_negate := a.service_negate.getD false
    schedule := a.schedule.getD "always"
    nat := a.nat.getD false
    fixedport := a.fixedport.getD false
    poolname := a.poolname
    av_profile := a.av_profile
    webfilter_profile := a.webfilter_profile
    ips_sensor := a.ips_sensor
    application_list := a.application_list }

/-- Double-quote wrapping of a value, the Python expression
percent-formatting a string into a pair of double quotes. -/
def dq (s : String) : String := "\"" ++ s ++ "\""

/-- The Python expression at source lines 240-242: double-quote every
list item and join the quoted items with single spaces, in order. -/
def quoteJoin (l : List String) : String :=
  String.intercalate " " (l.map (fun item => "\"" ++ item ++ "\""))

/-- A guarded flag parameter: set to enable when the condition holds,
untouched otherwise (the if module.params pattern, lines 245-250). -/
def optFlag (b : List (String × String)) (name : String) (c : Bool) :
    List (String × String) :=
  if c then setA b name "enable" else b

/-- A guarded quoted parameter: set to the double-quoted value when one
was supplied, untouched otherwise (the is-not-None pattern of source
lines 268-279). -/
def optQuoted (b : List (String × String)) (name : String) (o : Option String) :
    List (String × String) :=
  match o with
  | some v => setA b name (dq v)
  | none => b

/-- The NAT block of the builder (source lines 259-265): when nat is
true, set nat to enable, then fixedport to enable when requested, then
ippool to enable and poolname to the double-quoted pool name when a
poolname was supplied. -/
def natParams (p : Params) (b : List (String × String)) :
    List (String × String) :=
  if p.nat then
    let b1 := setA b "nat" "enable"
    let b2 := if p.fixedport then setA b1 "fixedport" "enable" else b1
    match p.poolname with
    | some pn => setA (setA b2 "ippool" "enable") "poolname" (dq pn)
    | none => b2
  else b

/-- The candidate policy block built by the present branch of main
(source lines 233-279), one set_param call per line of the source, in
source order. -/
def buildCandidate (p : Params) : ConfigNode :=
  let b := setA [] "srcintf" (dq p.src_intf)
  let b := setA b "dstintf" (dq p.dst_intf)
  let b := setA b "srcaddr" (quoteJoin p.src_addr)
  let b := setA b "dstaddr" (quoteJoin p.dst_addr)
  let b := setA b "service" (quoteJoin p.service)
  let b := optFlag b "srcaddr-negate" p.src_addr_negate
  let b := optFlag b "dstaddr-negate" p.dst_addr_negate
  let b := optFlag b "service-negate" p.service_negate
  let b := setA b "action" p.policy_action
  let b := setA b "schedule" p.schedule
  let b := natParams p b
  let b := optQuoted b "av-profile" p.av_profile
  let b := optQuoted b "webfilter-profile" p.webfilter_profile
  let b := optQuoted b "ips-sensor" p.ips_sensor
  let b := optQuoted b "application-list" p.application_list
  let b := optQuoted b "comment" p.comment
  ConfigNode.node b []

/-- Python truthiness of an optional string parameter, as tested by
line 216 of the source: None and the empty string are falsy. -/
def truthy : Option String → Bool
  | none => false
  | some s => !(s == "")

/-- Modelled from the spec: failure to load the running configuration
(spec section 7), either a parse failure or a transport failure. -/
inductive LoadError : Type where
  | parseError : String → LoadError
  | fetchError : String → LoadError
deriving DecidableEq

/-- How an invocation of main can fail: a structured fail_json exit, a
Python NameError raised on an unbound name, or a structured failure
while loading the running configuration. -/
inductive ModuleFailure : Type where
  | failJson : String → ModuleFailure
  | nameError : String → ModuleFailure
  | loadFailed : LoadError → ModuleFailure
deriving DecidableEq

/-- The observable outcome of one invocation of main: the failure if
any, the changed flag of the returned result, and the command lines
transmitted to the device. -/
structure RunResult : Type where
  failure : Option ModuleFailure
  changed : Bool
  sent : List String
deriving DecidableEq

/-- The cross-field validation of source lines 215-219 passes: it is
not the case that nat is off while poolname is truthy, and not the case
that nat is off while fixedport is set. -/
def validationOk (p : Params) : Bool :=
  !(!p.nat && truthy p.poolname) && !(!p.nat && p.fixedport)

/-- The diff computed for a present-state invocation: the candidate
tree is the running tree with the child block keyed by the decimal
policy id replaced by the freshly built candidate block (add_block,
source line 282), diffed against the running tree.  The diff engine it
feeds is modelled from the spec. -/
def moduleDiff (p : Params) (running : ConfigNode) : List Op :=
  diffNode running (running.setChild (toString p.id) (buildCandidate p))

/-- One invocation of main (source lines 177-285), given the already
validated parameters, the outcome of fetching the running
firewall-policy configuration, and the check-mode flag.  The
validation of lines 215-219 runs before the configuration is loaded;
a load failure aborts the run; the absent branch (line 229) evaluates
the unbound name path and therefore raises NameError before del_block
is ever invoked; the present branch builds the candidate block, adds
it to the candidate tree and applies the changes.  Applying is
modelled from the spec (section 4.5): an empty diff short-circuits to
changed false with nothing sent; otherwise changed is true and the
rendered commands are sent, or withheld in check mode. -/
def moduleRun (p : Params) (fetch : Except LoadError ConfigNode)
    (checkMode : Bool) : RunResult :=
  if !p.nat && truthy p.poolname then
    { failure := some (ModuleFailure.failJson "Poolname param requires NAT to be true.")
      changed := false, sent := [] }
  else if !p.nat && p.fixedport then
    { failure := some (ModuleFailure.failJson "Fixedport param requires NAT to be true.")
      changed := false, sent := [] }
  else
    match fetch with
    | Except.error e =>
        { failure := some (ModuleFailure.loadFailed e), changed := false, sent := [] }
    | Except.ok running =>
        match p.state with
        | PState.absent =>
            { failure := some (ModuleFailure.nameError "path"), changed := false, sent := [] }
        | PState.present =>
            let d := moduleDiff p running
            if d.isEmpty then { failure := none, changed := false, sent := [] }
            else { failure := none, changed := true
                   sent := if checkMode then [] else render d }

/-! Helper lemmas about association lists. -/

theorem getA_isSome_of_mem {α : Type} {l : List (String × α)} {k : String} {v : α}
    (h : (k, v) ∈ l) : (getA l k).isSome = true := by
  induction l with
  | nil => cases h
  | cons hd tl ih =>
      obtain ⟨k1, v1⟩ := hd
      rcases List.mem_cons.mp h with h1 | h1
      · cases h1
        simp [getA]
      · by_cases hk : k1 = k
        · simp [getA, hk]
        · simpa [getA, hk] using ih h1

theorem getA_mem {α : Type} {l : List (String × α)} (hl : keyNodup l = true)
    {k : String} {v : α} (h : (k, v) ∈ l) : getA l k = some v := by
  induction l with
  | nil => cases h
  | cons hd tl ih =>
      obtain ⟨k1, v1⟩ := hd
      simp only [keyNodup, Bool.and_eq_true] at hl
      rcases List.mem_cons.mp h with h1 | h1
      · cases h1
        simp [getA]
      · by_cases hk : k1 = k
        · exfalso
          have hs := getA_isSome_of_mem h1
          rw [hk] at hl
          rcases hl with ⟨hnone, _⟩
          rw [Option.isNone_iff_eq_none] at hnone
          rw [hnone] at hs
          simp at hs
        · simpa [getA, hk] using ih hl.2 h1

theorem setA_eq_of_getA {α : Type} {l : List (String × α)} {k : String} {v : α}
    (h : getA l k = some v) : setA l k v = l := by
  induction l with
  | nil => simp [getA] at h
  | cons hd tl ih =>
      obtain ⟨k1, v1⟩ := hd
      by_cases hk : k1 = k
      · simp only [getA, hk, if_pos rfl] at h
        cases h
        simp [setA, hk]
      · simp only [getA, hk, if_neg hk] at h
        simp [setA, hk, ih h]

theorem getA_setA_self {α : Type} (l : List (String × α)) (k : String) (v : α) :
    getA (setA l k v) k = some v := by
  induction l with
  | nil => simp [setA, getA]
  | cons hd tl ih =>
      obtain ⟨k1, v1⟩ := hd
      by_cases hk : k1 = k
      · simp [setA, hk, getA]
      · simp [setA, hk, getA, ih]

theorem getA_setA_ne {α : Type} (l : List (String × α)) (k : String) (v : α)
    {k2 : String} (h : k2 ≠ k) : getA (setA l k v) k2 = getA l k2 := by
  have hne : ¬ k = k2 := fun hh => h hh.symm
  induction l with
  | nil => simp [setA, getA, hne]
  | cons hd tl ih =>
      obtain ⟨k1, v1⟩ := hd
      by_cases hk : k1 = k
      · subst hk
        simp [setA, getA, hne]
      · by_cases hk2 : k1 = k2
        · simp [setA, hk, getA, hk2, h]
        · simp [setA, hk, getA, hk2, ih]

theorem getA_optFlag_ne (b : List (String × String)) (name : String) (c : Bool)
    {k2 : String} (h : k2 ≠ name) : getA (optFlag b name c) k2 = getA b k2 := by
  unfold optFlag
  split
  · exact getA_setA_ne b name "enable" h
  · rfl

theorem getA_optFlag_self (b : List (String × String)) (name : String) (c : Bool) :
    getA (optFlag b name c) name =
      (if c then some "enable" else getA b name) := by
  unfold optFlag
  by_cases hc : c = true
  · simp [hc, getA_setA_self]
  · simp at hc
    simp [hc]

theorem getA_optQuoted_ne (b : List (String × String)) (name : String)
    (o : Option String) {k2 : String} (h : k2 ≠ name) :
    getA (optQuoted b name o) k2 = getA b k2 := by
  unfold optQuoted
  cases o with
  | none => rfl
  | some v => exact getA_setA_ne b name (dq v) h

theorem getA_natParams_ne (p : Params) (b : List (String × String)) {k2 : String}
    (h1 : k2 ≠ "nat") (h2 : k2 ≠ "fixedport") (h3 : k2 ≠ "ippool")
    (h4 : k2 ≠ "poolname") : getA (natParams p b) k2 = getA b k2 := by
  unfold natParams
  by_cases hn : p.nat = true
  · simp only [hn, if_pos]
    cases p.poolname with
    | some pn =>
        rw [getA_setA_ne _ _ _ h4, getA_setA_ne _ _ _ h3]
        by_cases hf : p.fixedport = true
        · simp only [hf, if_pos]
          rw [getA_setA_ne _ _ _ h2, getA_setA_ne _ _ _ h1]
        · simp only [hf]
          simp only [Bool.false_eq_true, if_false]
          rw [getA_setA_ne _ _ _ h1]
    | none =>
        by_cases hf : p.fixedport = true
        · simp only [hf, if_pos]
          rw [getA_setA_ne _ _ _ h2, getA_setA_ne _ _ _ h1]
        · simp only [hf]
          simp only [Bool.false_eq_true, if_false]
          rw [getA_setA_ne _ _ _ h1]
  · simp at hn
    simp [hn]

/-! Helper lemmas about the diff engine. -/

theorem filterMap_none {α β : Type} (f : α → Option β) :
    ∀ l : List α, (∀ a ∈ l, f a = none) → l.filterMap f = [] := by
  intro l h
  induction l with
  | nil => rfl
  | cons hd tl ih =>
      rw [List.filterMap_cons, h hd (List.mem_cons_self hd tl)]
      exact ih (fun a ha => h a (List.mem_cons_of_mem hd ha))

theorem sizeOf_mem_children {cs : List (String × ConfigNode)} {k : String}
    {c : ConfigNode} (h : (k, c) ∈ cs) : sizeOf c < sizeOf cs := by
  induction cs with
  | nil => cases h
  | cons hd tl ih =>
      rcases List.mem_cons.mp h with h1 | h1
      · cases h1
        simp only [List.cons.sizeOf_spec, Prod.mk.sizeOf_spec]
        omega
      · have h2 := ih h1
        simp only [List.cons.sizeOf_spec]
        omega

theorem childrenWF_mem {cs : List (String × ConfigNode)} (h : childrenWF cs = true)
    {k : String} {c : ConfigNode} (hm : (k, c) ∈ cs) : nodeWF c = true := by
  induction cs with
  | nil => cases hm
  | cons hd tl ih =>
      obtain ⟨k1, c1⟩ := hd
      simp only [childrenWF, Bool.and_eq_true] at h
      rcases List.mem_cons.mp hm with h1 | h1
      · cases h1
        exact h.1
      · exact ih h.2 h1

theorem diffParams_self {ps : List (String × String)} (h : keyNodup ps = true) :
    diffParams ps ps = [] := by
  have e1 : ps.filterMap
      (fun kv => if getA ps kv.1 = some kv.2 then none else some (Op.SetParam kv.1 kv.2)) = [] := by
    apply filterMap_none
    intro kv hkv
    have hg : getA ps kv.1 = some kv.2 := getA_mem h (by simpa using hkv)
    simp [hg]
  have e2 : ps.filterMap
      (fun kv => if (getA ps kv.1).isSome then none else some (Op.UnsetParam kv.1)) = [] := by
    apply filterMap_none
    intro kv hkv
    have hg : (getA ps kv.1).isSome = true :=
      getA_isSome_of_mem (v := kv.2) (by simpa using hkv)
    simp [hg]
  unfold diffParams
  rw [e1, e2]
  rfl

theorem diffKids_nil (rc : List (String × ConfigNode)) :
    ∀ cc : List (String × ConfigNode),
      (∀ k c, (k, c) ∈ cc → getA rc k = some c ∧ diffNode c c = []) →
      diffKids rc cc = [] := by
  intro cc
  induction cc with
  | nil => intro _; rfl
  | cons hd tl ih =>
      intro h
      obtain ⟨k, c⟩ := hd
      have h1 := h k c (List.mem_cons_self _ _)
      simp only [diffKids]
      rw [h1.1]
      simp only [h1.2, if_pos rfl, List.nil_append]
      exact ih (fun k2 c2 hm => h k2 c2 (List.mem_cons_of_mem _ hm))

theorem diffNode_self_aux : ∀ (n : Nat) (C : ConfigNode), sizeOf C ≤ n →
    nodeWF C = true → diffNode C C = [] := by
  intro n
  induction n with
  | zero =>
      intro C hs _
      exfalso
      cases C with
      | node ps cs =>
          simp only [ConfigNode.node.sizeOf_spec] at hs
          omega
  | succ n ih =>
      intro C hs hwf
      cases C with
      | node ps cs =>
          simp only [nodeWF, Bool.and_eq_true] at hwf
          obtain ⟨⟨hps, hcs⟩, hch⟩ := hwf
          have e3 : cs.filterMap
              (fun kc => if (getA cs kc.1).isSome then none
                else some (Op.DeleteBlock kc.1)) = [] := by
            apply filterMap_none
            intro kc hkc
            have hg : (getA cs kc.1).isSome = true :=
              getA_isSome_of_mem (v := kc.2) (by simpa using hkc)
            simp [hg]
          have e4 : diffKids cs cs = [] := by
            apply diffKids_nil
            intro k c hm
            refine ⟨getA_mem hcs hm, ?_⟩
            have hlt : sizeOf c < sizeOf (ConfigNode.node ps cs) := by
              have h2 := sizeOf_mem_children hm
              simp only [ConfigNode.node.sizeOf_spec]
              omega
            exact ih c (by omega) (childrenWF_mem hch hm)
          simp only [diffNode, diffParams_self hps, e3, e4, List.append_nil]

/-- Modelled from the spec: the idempotence guarantee of the diff
engine (spec section 8): for any well-formed ConfigNode C, the diff of
C against itself is empty. -/
theorem diffNode_self (C : ConfigNode) (h : nodeWF C = true) : diffNode C C = [] :=
  diffNode_self_aux (sizeOf C) C (Nat.le_refl _) h

/-! Helper lemmas about the candidate builder. -/

theorem getA_natParams_nat (p : Params) (b : List (String × String)) :
    getA (natParams p b) "nat" = if p.nat then some "enable" else getA b "nat" := by
  unfold natParams
  by_cases hn : p.nat = true
  · simp only [hn, if_pos]
    cases p.poolname with
    | some pn =>
        rw [getA_setA_ne _ _ _ (by decide), getA_setA_ne _ _ _ (by decide)]
        by_cases hf : p.fixedport = true
        · simp [hf, getA_setA_ne _ _ _ (by decide : ("nat" : String) ≠ "fixedport"),
            getA_setA_self]
        · simp at hf
          simp [hf, getA_setA_self]
    | none =>
        by_cases hf : p.fixedport = true
        · simp [hf, getA_setA_ne _ _ _ (by decide : ("nat" : String) ≠ "fixedport"),
            getA_setA_self]
        · simp at hf
          simp [hf, getA_setA_self]
  · simp at hn
    simp [hn]

theorem getA_natParams_fixedport (p : Params) (b : List (String × String)) :
    getA (natParams p b) "fixedport" =
      if p.nat && p.fixedport then some "enable" else getA b "fixedport" := by
  unfold natParams
  by_cases hn : p.nat = true
  · simp only [hn, if_pos, Bool.true_and]
    cases p.poolname with
    | some pn =>
        rw [getA_setA_ne _ _ _ (by decide), getA_setA_ne _ _ _ (by decide)]
        by_cases hf : p.fixedport = true
        · simp [hf, getA_setA_self]
        · simp at hf
          simp [hf, getA_setA_ne _ _ _ (by decide : ("fixedport" : String) ≠ "nat")]
    | none =>
        by_cases hf : p.fixedport = true
        · simp [hf, getA_setA_self]
        · simp at hf
          simp [hf, getA_setA_ne _ _ _ (by decide : ("fixedport" : String) ≠ "nat")]
  · simp at hn
    simp [hn]

theorem getA_natParams_ippool (p : Params) (b : List (String × String)) :
    getA (natParams p b) "ippool" =
      if p.nat && p.poolname.isSome then some "enable" else getA b "ippool" := by
  unfold natParams
  by_cases hn : p.nat = true
  · simp only [hn, if_pos, Bool.true_and]
    cases p.poolname with
    | some pn =>
        rw [getA_setA_ne _ _ _ (by decide), getA_setA_self]
        simp
    | none =>
        by_cases hf : p.fixedport = true
        · simp [hf, getA_setA_ne _ _ _ (by decide : ("ippool" : String) ≠ "fixedport"),
            getA_setA_ne _ _ _ (by decide : ("ippool" : String) ≠ "nat")]
        · simp at hf
          simp [hf, getA_setA_ne _ _ _ (by decide : ("ippool" : String) ≠ "nat")]
  · simp at hn
    simp [hn]

theorem getA_natParams_poolname (p : Params) (b : List (String × String))
    (hb : getA b "poolname" = none) :
    getA (natParams p b) "poolname" =
      if p.nat then Option.map dq p.poolname else none := by
  unfold natParams
  by_cases hn : p.nat = true
  · simp only [hn, if_pos]
    cases p.poolname with
    | some pn =>
        rw [getA_setA_self]
        simp
    | none =>
        by_cases hf : p.fixedport = true
        · simp [hf, getA_setA_ne _ _ _ (by decide : ("poolname" : String) ≠ "fixedport"),
            getA_setA_ne _ _ _ (by decide : ("poolname" : String) ≠ "nat"), hb]
        · simp at hf
          simp [hf, getA_setA_ne _ _ _ (by decide : ("poolname" : String) ≠ "nat"), hb]
  · simp at hn
    simp [hn, hb]

theorem getA_buildCandidate_srcintf (p : Params) :
    getA (buildCandidate p).params "srcintf" = some (dq p.src_intf) := by
  simp only [buildCandidate, ConfigNode.params, getA_optQuoted_ne, getA_natParams_ne,
    getA_optFlag_ne, getA_setA_ne, getA_setA_self, ne_eq, String.reduceEq,
    not_false_eq_true]

theorem getA_buildCandidate_dstintf (p : Params) :
    getA (buildCandidate p).params "dstintf" = some (dq p.dst_intf) := by
  simp only [buildCandidate, ConfigNode.params, getA_optQuoted_ne, getA_natParams_ne,
    getA_optFlag_ne, getA_setA_ne, getA_setA_self, ne_eq, String.reduceEq,
    not_false_eq_true]

theorem getA_buildCandidate_srcaddr (p : Params) :
    getA (buildCandidate p).params "srcaddr" = some (quoteJoin p.src_addr) := by
  simp only [buildCandidate, ConfigNode.params, getA_optQuoted_ne, getA_natParams_ne,
    getA_optFlag_ne, getA_setA_ne, getA_setA_self, ne_eq, String.reduceEq,
    not_false_eq_true]

theorem getA_buildCandidate_dstaddr (p : Params) :
    getA (buildCandidate p).params "dstaddr" = some (quoteJoin p.dst_addr) := by
  simp only [buildCandidate, ConfigNode.params, getA_optQuoted_ne, getA_natParams_ne,
    getA_optFlag_ne, getA_setA_ne, getA_setA_self, ne_eq, String.reduceEq,
    not_false_eq_true]

theorem getA_buildCandidate_service (p : Params) :
    getA (buildCandidate p).params "service" = some (quoteJoin p.service) := by
  simp only [buildCandidate, ConfigNode.params, getA_optQuoted_ne, getA_natParams_ne,
    getA_optFlag_ne, getA_setA_ne, getA_setA_self, ne_eq, String.reduceEq,
    not_false_eq_true]

theorem getA_buildCandidate_action (p : Params) :
    getA (buildCandidate p).params "action" = some p.policy_action := by
  simp only [buildCandidate, ConfigNode.params, getA_optQuoted_ne, getA_natParams_ne,
    getA_optFlag_ne, getA_setA_ne, getA_setA_self, ne_eq, String.reduceEq,
    not_false_eq_true]

theorem getA_buildCandidate_schedule (p : Params) :
    getA (buildCandidate p).params "schedule" = some p.schedule := by
  simp only [buildCandidate, ConfigNode.params, getA_optQuoted_ne, getA_natParams_ne,
    getA_optFlag_ne, getA_setA_ne, getA_setA_self, ne_eq, String.reduceEq,
    not_false_eq_true]

theorem getA_buildCandidate_srcaddr_negate (p : Params) :
    getA (buildCandidate p).params "srcaddr-negate" =
      if p.src_addr_negate then some "enable" else none := by
  simp only [buildCandidate, ConfigNode.params, getA_optQuoted_ne, getA_natParams_ne,
    getA_optFlag_ne, getA_setA_ne, getA_optFlag_self, getA, ne_eq, String.reduceEq,
    not_false_eq_true, ite_false]

theorem getA_buildCandidate_dstaddr_negate (p : Params) :
    getA (buildCandidate p).params "dstaddr-negate" =
      if p.dst_addr_negate then some "enable" else none := by
  simp only [buildCandidate, ConfigNode.params, getA_optQuoted_ne, getA_natParams_ne,
    getA_optFlag_ne, getA_setA_ne, getA_optFlag_self, getA, ne_eq, String.reduceEq,
    not_false_eq_true, ite_false]

theorem getA_buildCandidate_service_negate (p : Params) :
    getA (buildCandidate p).params "service-negate" =
      if p.service_negate then some "enable" else none := by
  simp only [buildCandidate, ConfigNode.params, getA_optQuoted_ne, getA_natParams_ne,
    getA_optFlag_ne, getA_setA_ne, getA_optFlag_self, getA, ne_eq, String.reduceEq,
    not_false_eq_true, ite_false]

theorem getA_buildCandidate_nat (p : Params) :
    getA (buildCandidate p).params "nat" =
      if p.nat then some "enable" else none := by
  simp only [buildCandidate, ConfigNode.params, getA_optQuoted_ne, getA_natParams_nat,
    getA_optFlag_ne, getA_setA_ne, getA, ne_eq, String.reduceEq, not_false_eq_true,
    ite_false]

theorem getA_buildCandidate_fixedport (p : Params) :
    getA (buildCandidate p).params "fixedport" =
      if p.nat && p.fixedport then some "enable" else none := by
  simp only [buildCandidate, ConfigNode.params, getA_optQuoted_ne,
    getA_natParams_fixedport, getA_optFlag_ne, getA_setA_ne, getA, ne_eq,
    String.reduceEq, not_false_eq_true, ite_false]

theorem getA_buildCandidate_ippool (p : Params) :
    getA (buildCandidate p).params "ippool" =
      if p.nat && p.poolname.isSome then some "enable" else none := by
  simp only [buildCandidate, ConfigNode.params, getA_optQuoted_ne,
    getA_natParams_ippool, getA_optFlag_ne, getA_setA_ne, getA, ne_eq,
    String.reduceEq, not_false_eq_true, ite_false]

theorem getA_buildCandidate_poolname (p : Params) :
    getA (buildCandidate p).params "poolname" =
      if p.nat then Option.map dq p.poolname else none := by
  simp only [buildCandidate, ConfigNode.params, getA_optQuoted_ne, getA_optFlag_ne,
    getA_setA_ne, getA, ne_eq, String.reduceEq, not_false_eq_true]
  rw [getA_natParams_poolname]
  simp only [getA_optFlag_ne, getA_setA_ne, getA, ne_eq, String.reduceEq,
    not_false_eq_true, ite_false]

/-! Concrete fixtures for witness runs. -/

/-- A baseline parameter record: the required module arguments with
every optional feature at its argument_spec default. -/
def pBase : Params :=
  { comment := none, id := 42, src_intf := "any", dst_intf := "any",
    state := PState.present, src_addr := ["all"], dst_addr := ["all"],
    src_addr_negate := false, dst_addr_negate := false,
    policy_action := "accept", service := ["ANY"], service_negate := false,
    schedule := "always", nat := false, fixedport := false, poolname := none,
    av_profile := none, webfilter_profile := none, ips_sensor := none,
    application_list := none }

/-- A running firewall-policy tree holding one policy block 42 whose
action is deny. -/
def running42 : ConfigNode :=
  ConfigNode.node [] [("42", ConfigNode.node [("action", "deny")] [])]

/-- Unpacking the validation predicate: when validation passes, both
guard conditions of source lines 215-219 are false. -/
theorem validationOk_elim {p : Params} (hv : validationOk p = true) :
    (!p.nat && truthy p.poolname) = false ∧ (!p.nat && p.fixedport) = false := by
  unfold validationOk at hv
  constructor
  · cases h1 : (!p.nat && truthy p.poolname) with
    | false => rfl
    | true =>
        rw [h1] at hv
        simp at hv
  · cases h2 : (!p.nat && p.fixedport) with
    | false => rfl
    | true =>
        rw [h2] at hv
        simp at hv

/-! The claims. -/

/-- C1: the claim says a state-absent invocation whose policy id is a
child block of the running firewall-policy tree deletes that block,
applies the deletion and returns changed true, with no unrelated fault
raised first.  The code violates this: line 229 of the module reads the
name path, which is bound nowhere in the module, so Python raises
NameError before del_block is ever invoked.  This theorem evaluates the
embedded module at the failing input (state absent, policy 42 present
in running) and shows the NameError outcome with nothing deleted and
nothing sent. -/
theorem C1_absent_raises_nameError_instead_of_deleting :
    moduleRun { pBase with state := PState.absent } (Except.ok running42) false
      = { failure := some (ModuleFailure.nameError "path"),
          changed := false, sent := [] } := rfl

/-- C2: with nat false and a truthy poolname the module fails fast with
the structured Poolname message, with nothing sent and a result
independent of any device interaction; with nat false and fixedport
true it likewise fails fast with a structured message, nothing sent,
and the outcome does not depend on the fetched configuration. -/
theorem C2_nat_precondition_failfast (p : Params)
    (fetch fetch2 : Except LoadError ConfigNode) (cm : Bool) :
    (p.nat = false → truthy p.poolname = true →
      moduleRun p fetch cm =
        { failure := some (ModuleFailure.failJson
            "Poolname param requires NAT to be true."),
          changed := false, sent := [] })
    ∧ (p.nat = false → p.fixedport = true →
      (∃ msg, moduleRun p fetch cm =
        { failure := some (ModuleFailure.failJson msg),
          changed := false, sent := [] })
      ∧ moduleRun p fetch cm = moduleRun p fetch2 cm) := by
  constructor
  · intro hn hp
    simp [moduleRun, hn, hp]
  · intro hn hf
    by_cases hp : truthy p.poolname = true
    · refine ⟨⟨"Poolname param requires NAT to be true.", ?_⟩, ?_⟩
      · simp [moduleRun, hn, hp]
      · simp [moduleRun, hn, hp]
    · simp only [Bool.not_eq_true] at hp
      refine ⟨⟨"Fixedport param requires NAT to be true.", ?_⟩, ?_⟩
      · simp [moduleRun, hn, hp, hf]
      · simp [moduleRun, hn, hp, hf]

/-- Witness for C2 at concrete inputs: a poolname without NAT fails
with the Poolname message, and a fixedport without NAT gives the same
outcome whether the device fetch would have failed or succeeded. -/
theorem C2_nat_precondition_failfast_witness :
    moduleRun { pBase with poolname := some "pool1" }
        (Except.ok (ConfigNode.node [] [])) false
      = { failure := some (ModuleFailure.failJson
            "Poolname param requires NAT to be true."),
          changed := false, sent := [] }
    ∧ moduleRun { pBase with fixedport := true }
        (Except.error (LoadError.fetchError "device unreachable")) false
      = moduleRun { pBase with fixedport := true }
        (Except.ok (ConfigNode.node [] [])) false := by
  constructor
  · exact (C2_nat_precondition_failfast { pBase with poolname := some "pool1" }
      (Except.ok (ConfigNode.node [] [])) (Except.ok (ConfigNode.node [] []))
      false).1 rfl rfl
  · exact ((C2_nat_precondition_failfast { pBase with fixedport := true }
      (Except.error (LoadError.fetchError "device unreachable"))
      (Except.ok (ConfigNode.node [] [])) false).2 rfl rfl).2

/-- C3: in the candidate block built by the present branch, each
list-valued input (src_addr, dst_addr, service) becomes a single opaque
string: every item double-quoted, the quoted items joined with single
spaces, in the input order (quoteJoin embeds source lines 240-242). -/
theorem C3_list_values_quote_joined (p : Params) :
    getA (buildCandidate p).params "srcaddr" = some (quoteJoin p.src_addr)
    ∧ getA (buildCandidate p).params "dstaddr" = some (quoteJoin p.dst_addr)
    ∧ getA (buildCandidate p).params "service" = some (quoteJoin p.service) :=
  ⟨getA_buildCandidate_srcaddr p, getA_buildCandidate_dstaddr p,
    getA_buildCandidate_service p⟩

/-- C4: the diff of any well-formed ConfigNode against itself is empty;
consequently a present-state invocation whose running tree already
holds, under the decimal policy id, a child block identical to the
built candidate returns changed false with zero commands sent. -/
theorem C4_diff_idempotence :
    (∀ C : ConfigNode, nodeWF C = true → diffNode C C = [])
    ∧ ∀ (p : Params) (running : ConfigNode) (cm : Bool),
        validationOk p = true → p.state = PState.present →
        nodeWF running = true →
        getA running.children (toString p.id) = some (buildCandidate p) →
        moduleRun p (Except.ok running) cm =
          { failure := none, changed := false, sent := [] } := by
  refine ⟨diffNode_self, ?_⟩
  intro p running cm hv hs hwf hchild
  have hv2 := validationOk_elim hv
  have hd : moduleDiff p running = [] := by
    unfold moduleDiff
    cases running with
    | node ps cs =>
        simp only [ConfigNode.children] at hchild
        simp only [ConfigNode.setChild, setA_eq_of_getA hchild]
        exact diffNode_self _ hwf
  simp [moduleRun, hv2.1, hv2.2, hs, hd]

/-- Witness for C4 at a concrete input: the empty node diffs empty
against itself, and a run whose running tree already holds the
candidate block under id 42 reports changed false and sends nothing. -/
theorem C4_diff_idempotence_witness :
    diffNode (ConfigNode.node [] []) (ConfigNode.node [] []) = []
    ∧ moduleRun pBase
        (Except.ok (ConfigNode.node [] [("42", buildCandidate pBase)])) false
      = { failure := none, changed := false, sent := [] } := by
  constructor
  · exact C4_diff_idempotence.1 (ConfigNode.node [] []) rfl
  · exact C4_diff_idempotence.2 pBase
      (ConfigNode.node [] [("42", buildCandidate pBase)]) false rfl rfl rfl rfl

/-- C5: for a running policy block whose action differs from the
candidate and which lacks the srcaddr param the candidate declares, the
diff is exactly EditBlock, one SetParam per candidate param that
differs or is absent in running, then EndBlock; the absent param yields
SetParam, never UnsetParam. -/
theorem C5_edit_set_end_shape (idk a b s : String) (h : a ≠ b) :
    diffNode (ConfigNode.node [] [(idk, ConfigNode.node [("action", a)] [])])
             (ConfigNode.node [] [(idk, ConfigNode.node [("action", b), ("srcaddr", s)] [])])
      = [Op.EditBlock idk, Op.SetParam "action" b, Op.SetParam "srcaddr" s,
          Op.EndBlock] := by
  simp [diffNode, diffKids, diffParams, getA, h]

/-- Witness for C5 at the concrete Scenario A input: policy 42, action
deny versus accept, candidate srcaddr all. -/
theorem C5_edit_set_end_shape_witness :
    diffNode (ConfigNode.node [] [("42", ConfigNode.node [("action", "deny")] [])])
             (ConfigNode.node [] [("42", ConfigNode.node
                [("action", "accept"), ("srcaddr", "\"all\"")] [])])
      = [Op.EditBlock "42", Op.SetParam "action" "accept",
          Op.SetParam "srcaddr" "\"all\"", Op.EndBlock] :=
  C5_edit_set_end_shape "42" "deny" "accept" "\"all\"" (by decide)

/-- C6: a check-mode invocation transmits no commands on any path, and
on the path that returns a result (validation passed, fetch succeeded,
state present) the changed flag still reflects whether the computed
diff was non-empty. -/
theorem C6_check_mode_transmits_nothing (p : Params)
    (fetch : Except LoadError ConfigNode) :
    (moduleRun p fetch true).sent = []
    ∧ ∀ running, fetch = Except.ok running → validationOk p = true →
        p.state = PState.present →
        (moduleRun p fetch true).changed = !(moduleDiff p running).isEmpty := by
  constructor
  · unfold moduleRun
    by_cases h1 : (!p.nat && truthy p.poolname) = true
    · simp [h1]
    · by_cases h2 : (!p.nat && p.fixedport) = true
      · simp [h1, h2]
      · cases fetch with
        | error e => simp [h1, h2]
        | ok running =>
            cases hps : p.state with
            | absent => simp [h1, h2, hps]
            | present =>
                by_cases hd : (moduleDiff p running).isEmpty = true
                · simp [h1, h2, hps, hd]
                · simp [h1, h2, hps, hd]
  · intro running hf hv hs
    subst hf
    have hv2 := validationOk_elim hv
    by_cases hd : (moduleDiff p running).isEmpty = true
    · simp [moduleRun, hv2.1, hv2.2, hs, hd]
    · simp only [Bool.not_eq_true] at hd
      simp [moduleRun, hv2.1, hv2.2, hs, hd]

/-- Witness for C6 at a concrete input: against an empty running tree
the check-mode run sends nothing while its changed flag equals the
non-emptiness of the computed diff. -/
theorem C6_check_mode_transmits_nothing_witness :
    (moduleRun pBase (Except.ok (ConfigNode.node [] [])) true).sent = []
    ∧ (moduleRun pBase (Except.ok (ConfigNode.node [] [])) true).changed
        = !(moduleDiff pBase (ConfigNode.node [] [])).isEmpty := by
  constructor
  · exact (C6_check_mode_transmits_nothing pBase
      (Except.ok (ConfigNode.node [] []))).1
  · exact (C6_check_mode_transmits_nothing pBase
      (Except.ok (ConfigNode.node [] []))).2 (ConfigNode.node [] []) rfl rfl rfl

/-- C7: when loading the running configuration fails (parse or fetch
failure), a validated invocation aborts with the structured load
failure: no candidate is applied and no command is sent. -/
theorem C7_load_failure_structured_abort (p : Params) (e : LoadError)
    (cm : Bool) (hv : validationOk p = true) :
    moduleRun p (Except.error e) cm =
      { failure := some (ModuleFailure.loadFailed e),
        changed := false, sent := [] } := by
  have hv2 := validationOk_elim hv
  simp [moduleRun, hv2.1, hv2.2]

/-- Witness for C7 at a concrete input: a fetch failure aborts the
baseline run with the structured load failure and nothing sent. -/
theorem C7_load_failure_structured_abort_witness :
    moduleRun pBase (Except.error (LoadError.fetchError "connection timed out"))
        false
      = { failure := some (ModuleFailure.loadFailed
            (LoadError.fetchError "connection timed out")),
          changed := false, sent := [] } :=
  C7_load_failure_structured_abort pBase
    (LoadError.fetchError "connection timed out") false rfl

/-- C8: in any candidate buildable by a validated invocation (fixedport
implies nat), each boolean flag appears in the candidate exactly when
it is true, always with the value enable, and is absent when false. -/
theorem C8_flags_enable_or_absent (p : Params)
    (hfp : p.fixedport = true → p.nat = true) :
    getA (buildCandidate p).params "srcaddr-negate" =
        (if p.src_addr_negate then some "enable" else none)
    ∧ getA (buildCandidate p).params "dstaddr-negate" =
        (if p.dst_addr_negate then some "enable" else none)
    ∧ getA (buildCandidate p).params "service-negate" =
        (if p.service_negate then some "enable" else none)
    ∧ getA (buildCandidate p).params "nat" =
        (if p.nat then some "enable" else none)
    ∧ getA (buildCandidate p).params "fixedport" =
        (if p.fixedport then some "enable" else none) := by
  refine ⟨getA_buildCandidate_srcaddr_negate p, getA_buildCandidate_dstaddr_negate p,
    getA_buildCandidate_service_negate p, getA_buildCandidate_nat p, ?_⟩
  rw [getA_buildCandidate_fixedport]
  by_cases hf : p.fixedport = true
  · simp [hf, hfp hf]
  · simp only [Bool.not_eq_true] at hf
    simp [hf]

/-- Witness for C8 at a concrete input: nat and fixedport on, the
negate flags off. -/
theorem C8_flags_enable_or_absent_witness :
    getA (buildCandidate { pBase with nat := true, fixedport := true }).params
        "fixedport" = some "enable"
    ∧ getA (buildCandidate { pBase with nat := true, fixedport := true }).params
        "srcaddr-negate" = none := by
  constructor
  · have h := (C8_flags_enable_or_absent
      { pBase with nat := true, fixedport := true } (fun _ => rfl)).2.2.2.2
    simpa using h
  · have h := (C8_flags_enable_or_absent
      { pBase with nat := true, fixedport := true } (fun _ => rfl)).1
    simpa using h

/-- C9: the candidate built from any caller input always carries the
seven parameters srcintf, dstintf, srcaddr, dstaddr, service, action
and schedule; srcintf and dstintf default to the quoted string any and
schedule to always when the caller omits them. -/
theorem C9_seven_params_and_defaults (a : UserArgs) :
    (getA (buildCandidate (resolveParams a)).params "srcintf"
        = some (dq (resolveParams a).src_intf)
    ∧ getA (buildCandidate (resolveParams a)).params "dstintf"
        = some (dq (resolveParams a).dst_intf)
    ∧ getA (buildCandidate (resolveParams a)).params "srcaddr"
        = some (quoteJoin a.src_addr)
    ∧ getA (buildCandidate (resolveParams a)).params "dstaddr"
        = some (quoteJoin a.dst_addr)
    ∧ getA (buildCandidate (resolveParams a)).params "service"
        = some (quoteJoin a.service)
    ∧ getA (buildCandidate (resolveParams a)).params "action"
        = some a.policy_action
    ∧ getA (buildCandidate (resolveParams a)).params "schedule"
        = some (resolveParams a).schedule)
    ∧ (a.src_intf = none →
        getA (buildCandidate (resolveParams a)).params "srcintf" = some (dq "any"))
    ∧ (a.dst_intf = none →
        getA (buildCandidate (resolveParams a)).params "dstintf" = some (dq "any"))
    ∧ (a.schedule = none →
        getA (buildCandidate (resolveParams a)).params "schedule" = some "always") := by
  refine ⟨⟨getA_buildCandidate_srcintf _, getA_buildCandidate_dstintf _,
    getA_buildCandidate_srcaddr _, getA_buildCandidate_dstaddr _,
    getA_buildCandidate_service _, getA_buildCandidate_action _,
    getA_buildCandidate_schedule _⟩, ?_, ?_, ?_⟩
  · intro h
    rw [getA_buildCandidate_srcintf]
    simp [resolveParams, h]
  · intro h
    rw [getA_buildCandidate_dstintf]
    simp [resolveParams, h]
  · intro h
    rw [getA_buildCandidate_schedule]
    simp [resolveParams, h]

/-- Witness for C9 at a concrete input: the baseline arguments with
src_intf, dst_intf and schedule omitted. -/
theorem C9_seven_params_and_defaults_witness :
    getA (buildCandidate (resolveParams
      { comment := none, id := 7, src_intf := none, dst_intf := none,
        state := none, src_addr := ["all"], dst_addr := ["all"],
        src_addr_negate := none, dst_addr_negate := none,
        policy_action := "deny", service := ["DNS"], service_negate := none,
        schedule := none, nat := none, fixedport := none, poolname := none,
        av_profile := none, webfilter_profile := none, ips_sensor := none,
        application_list := none })).params "srcintf" = some (dq "any")
    ∧ getA (buildCandidate (resolveParams
      { comment := none, id := 7, src_intf := none, dst_intf := none,
        state := none, src_addr := ["all"], dst_addr := ["all"],
        src_addr_negate := none, dst_addr_negate := none,
        policy_action := "deny", service := ["DNS"], service_negate := none,
        schedule := none, nat := none, fixedport := none, poolname := none,
        av_profile := none, webfilter_profile := none, ips_sensor := none,
        application_list := none })).params "schedule" = some "always" := by
  constructor
  · exact (C9_seven_params_and_defaults _).2.1 rfl
  · exact (C9_seven_params_and_defaults _).2.2.2 rfl

/-- C10: with nat true and a supplied poolname the candidate carries
both ippool enable and the double-quoted pool name; and whenever the
candidate carries a poolname at all, it also carries ippool enable. -/
theorem C10_poolname_implies_ippool (p : Params) :
    (p.nat = true → ∀ pn, p.poolname = some pn →
      getA (buildCandidate p).params "ippool" = some "enable"
      ∧ getA (buildCandidate p).params "poolname" = some (dq pn))
    ∧ ∀ v, getA (buildCandidate p).params "poolname" = some v →
      getA (buildCandidate p).params "ippool" = some "enable" := by
  constructor
  · intro hn pn hp
    constructor
    · rw [getA_buildCandidate_ippool]
      simp [hn, hp]
    · rw [getA_buildCandidate_poolname]
      simp [hn, hp]
  · intro v hv
    rw [getA_buildCandidate_poolname] at hv
    rw [getA_buildCandidate_ippool]
    by_cases hn : p.nat = true
    · rw [hn] at hv
      simp only [if_pos] at hv
      cases hpn : p.poolname with
      | none =>
          rw [hpn] at hv
          simp at hv
      | some pn => simp [hn, hpn]
    · simp only [Bool.not_eq_true] at hn
      rw [hn] at hv
      simp at hv

/-- Witness for C10 at a concrete input: nat on with pool name pool1
yields ippool enable and the quoted pool name. -/
theorem C10_poolname_implies_ippool_witness :
    getA (buildCandidate
        { pBase with nat := true, poolname := some "pool1" }).params "ippool"
      = some "enable"
    ∧ getA (buildCandidate
        { pBase with nat := true, poolname := some "pool1" }).params "poolname"
      = some (dq "pool1") :=
  (C10_poolname_implies_ippool
    { pBase with nat := true, poolname := some "pool1" }).1 rfl "pool1" rfl

end Fortios
